import Mathlib

/-!
Verification of the wayfinder-fox alert-enrichment pipeline
(`src/wayfinder-fox/src/wayfinder_fox/`): a shallow embedding of the data
model (`kubernetes.py`, `enricher.py`), the telemetry span builder
(`telemetry.py` plus the OpenTelemetry parenting discipline used by
`trace.use_span`), the criticality router (`router.py`), the TTL cache
(`kubernetes.py`), and the entry action (`actions/fox_enrich.py`), with
theorems settling the specification's claims about them.

Python dicts with string keys are embedded as insertion-ordered
association lists with unique keys; `dict.get` is lookup of the first
matching key.  Time (`time.monotonic()`) is embedded as `Int`: the cache
logic uses only ordering and addition of timestamps.  Python exceptions
are embedded as `Except String`.
-/

namespace Wayfinder

/-- `d.get(k)` on a `str -> str` Python dict: `none` when the key is absent. -/
def sget (m : List (String × String)) (k : String) : Option String :=
  (m.find? (fun p => p.1 == k)).map (fun p => p.2)

/-- `d.get(k, default)` on a `str -> str` Python dict. -/
def sgetD (m : List (String × String)) (k : String) (d : String) : String :=
  (sget m k).getD d

/-- `Alert` dataclass (`enricher.py`). -/
structure Alert where
  name : String
  labels : List (String × String) := []
  annotations : List (String × String) := []
  status : String := "firing"
  source : String := "alertmanager"
deriving Repr, DecidableEq

/-- `ProjectContext` dataclass (`kubernetes.py`). -/
structure ProjectContext where
  project_id : String
  criticality : String := "medium"
  owner : String := ""
  alert_channels : List String := []
  availability_slo : String := ""
  latency_p99 : String := ""
deriving Repr, DecidableEq

/-- `EnrichedAlert` dataclass (`enricher.py`), with its field defaults. -/
structure EnrichedAlert where
  alert : Alert
  project_id : String := ""
  criticality : String := "medium"
  business_owner : String := ""
  alert_channels : List String := []
  availability_slo : String := ""
  latency_p99 : String := ""
  enriched : Bool := false
deriving Repr, DecidableEq

/-! ## Telemetry (`telemetry.py` and the OpenTelemetry context rules)

`FoxTracer.alert_received` / `context_enrich` / `action` each call
`tracer.start_span`, which creates a span whose parent is the currently
active span (the top of the `trace.use_span` context stack) and which
shares the parent's trace id, or starts a fresh trace when no span is
active.  `Span.end()` marks the span ended.  The embedding threads an
explicit `TraceCtx` through every operation.
-/

/-- One started span: identity, name, attributes, parent/trace linkage,
and whether `end()` has been called on it. -/
structure Span where
  sid : Nat
  name : String
  attrs : List (String × String)
  parent : Option Nat
  traceId : Nat
  ended : Bool
deriving Repr, DecidableEq

/-- Tracer state: the stack of active (`use_span`) span ids, every span
started so far in start order, and fresh-id counters. -/
structure TraceCtx where
  stack : List Nat := []
  spans : List Span := []
  nextSid : Nat := 0
  nextTrace : Nat := 0
deriving Repr, DecidableEq

def TraceCtx.empty : TraceCtx := {}

def TraceCtx.findSpan (tc : TraceCtx) (sid : Nat) : Option Span :=
  tc.spans.find? (fun s => s.sid == sid)

/-- `tracer.start_span(name, attributes=attrs)`: parent is the active span
(top of the context stack); the trace id is inherited from the parent, or
fresh for a root span. -/
def startSpan (tc : TraceCtx) (name : String) (attrs : List (String × String)) :
    Span × TraceCtx :=
  match tc.stack.head? >>= tc.findSpan with
  | some parentSpan =>
      let s : Span := ⟨tc.nextSid, name, attrs, some parentSpan.sid,
                       parentSpan.traceId, false⟩
      (s, { tc with spans := tc.spans ++ [s], nextSid := tc.nextSid + 1 })
  | none =>
      let s : Span := ⟨tc.nextSid, name, attrs, none, tc.nextTrace, false⟩
      (s, { tc with spans := tc.spans ++ [s], nextSid := tc.nextSid + 1,
                    nextTrace := tc.nextTrace + 1 })

/-- `span.end()`: mark the span with this id ended. -/
def endSpan (tc : TraceCtx) (sid : Nat) : TraceCtx :=
  { tc with
    spans := tc.spans.map (fun s => if s.sid == sid then { s with ended := true } else s) }

/-- Entering `with trace.use_span(span, ...)`: the span becomes the active one. -/
def pushSpan (tc : TraceCtx) (sid : Nat) : TraceCtx :=
  { tc with stack := sid :: tc.stack }

/-- Leaving the `with trace.use_span(span, ...)` block. -/
def popSpan (tc : TraceCtx) : TraceCtx :=
  { tc with stack := tc.stack.tail }

/-! ## Enricher (`enricher.py`, `ProjectContextEnricher.enrich`) -/

/-- `alert.labels.get("namespace")` (`enricher.py` line 65). -/
def candidateNamespace (a : Alert) : Option String :=
  sget a.labels "namespace"

/-- `alert.labels.get("project_id", alert.labels.get("project", ""))`
(`enricher.py` line 66). -/
def candidateProjectId (a : Alert) : String :=
  (sget a.labels "project_id").getD ((sget a.labels "project").getD "")

/-- The `project_id=project_id or None` argument of the reader call
(`enricher.py` line 71): Python `or` maps the empty string to `None`. -/
def projectIdArg (a : Alert) : Option String :=
  if candidateProjectId a = "" then none else some (candidateProjectId a)

/-- The injected `ProjectContextReader.lookup` collaborator, as a function of
the three arguments `enrich` passes it (namespace, labels, project_id). -/
abbrev ReaderFn : Type :=
  Option String → List (String × String) → Option String → Option ProjectContext

/-- `ProjectContextEnricher.enrich` (`enricher.py` lines 58-96), with the
telemetry state threaded explicitly.  Exactly as in the source, the
`fox.context.enrich` span is started, `span.end()` is called on it, and the
Python function returns only the `EnrichedAlert` (annotated
`-> EnrichedAlert`); the first component is that return value. -/
def enrich (reader : ReaderFn) (tc : TraceCtx) (a : Alert) :
    EnrichedAlert × TraceCtx :=
  let pid := candidateProjectId a
  let ctx := reader (candidateNamespace a) a.labels (projectIdArg a)
  let e : EnrichedAlert :=
    match ctx with
    | some c =>
        { alert := a, project_id := c.project_id, criticality := c.criticality
          business_owner := c.owner, alert_channels := c.alert_channels
          availability_slo := c.availability_slo, latency_p99 := c.latency_p99
          enriched := true }
    | none =>
        { alert := a, project_id := pid
          criticality := sgetD a.labels "severity" "medium" }
  let st := startSpan tc "fox.context.enrich"
      [("alert.name", a.name), ("project.id", e.project_id),
       ("alert.criticality", e.criticality), ("business.owner", e.business_owner)]
  (e, endSpan st.2 st.1.sid)

/-! ## Criticality router (`router.py`, `config.py`) -/

/-- The default `FoxConfig.routing_table` (`config.py` lines 30-35),
insertion-ordered. -/
def defaultRoutingTable : List (String × List String) :=
  [("critical", ["claude_analysis", "context_notify"]),
   ("high", ["context_notify"]),
   ("medium", ["log"]),
   ("low", ["log"])]

/-- Python `str.lower()`: lower-case every character.  (Extensionally
`String.toLower`, written over the character list so that concrete
instances evaluate inside the kernel.) -/
def pyLower (s : String) : String :=
  ⟨s.data.map Char.toLower⟩

/-- `CriticalityRouter.route` (`router.py` lines 25-32):
`routing_table.get(enriched.criticality.lower(), ["log"])` over the injected
configuration table. -/
def route (table : List (String × List String)) (e : EnrichedAlert) : List String :=
  ((table.find? (fun p => p.1 == pyLower e.criticality)).map (fun p => p.2)).getD ["log"]

/-- `CriticalityRouter.dispatch` (`router.py` lines 34-46): route, then start
and immediately end one `fox.action.<name>` span per action, in order. -/
def dispatch (table : List (String × List String)) (tc : TraceCtx)
    (e : EnrichedAlert) : List String × TraceCtx :=
  let actions := route table e
  let tcOut := actions.foldl
    (fun acc action_name =>
      let (span, acc1) := startSpan acc ("fox.action." ++ action_name)
        [("alert.name", e.alert.name), ("project.id", e.project_id),
         ("action.name", action_name)]
      endSpan acc1 span.sid)
    tc
  (actions, tcOut)

/-! ## ProjectContext reader cache (`kubernetes.py`, `ProjectContextReader`)

The cache is a Python dict `key -> _CacheEntry`, embedded as an
insertion-ordered association list with unique keys: `dict.pop` removes the
key, assignment of a fresh key appends, `min(dict, key=...)` returns the
first key in insertion order attaining the minimum, `del` removes it.
The Kubernetes and YAML authorities (`_lookup_kubernetes`, `_from_yaml`,
lines 75-80) are abstracted as the `query` argument: the combined result of
consulting them for these arguments; the boolean in the result of `lookup`
records whether that authority block was reached. -/

/-- `_CacheEntry` (`kubernetes.py`). -/
structure CacheEntry where
  context : ProjectContext
  expires_at : Int
deriving Repr, DecidableEq

abbrev Cache : Type := List (String × CacheEntry)

/-- `_MAX_CACHE_SIZE` (`kubernetes.py` line 45). -/
def MAX_CACHE_SIZE : Nat := 1024

/-- `self._cache.get(key)`. -/
def cacheGet (c : Cache) (k : String) : Option CacheEntry :=
  (List.find? (fun p => p.1 == k) c).map (fun p => p.2)

/-- `self._cache.pop(key, None)`: the cache without that key. -/
def cachePop (c : Cache) (k : String) : Cache :=
  List.filter (fun p => p.1 != k) c

/-- `_evict_expired` (`kubernetes.py` lines 97-101): delete every entry with
`now >= expires_at`. -/
def evictExpired (now : Int) (c : Cache) : Cache :=
  List.filter (fun p => decide (now < p.2.expires_at)) c

/-- The smallest `expires_at` present in the cache. -/
def minExpiry (c : Cache) : Option Int :=
  (List.map (fun p => p.2.expires_at) c).min?

/-- `oldest_key = min(self._cache, key=lambda k: ...expires_at); del ...`:
remove the first entry (insertion order) attaining the minimal expiry. -/
def evictOldest (c : Cache) : Cache :=
  match minExpiry c with
  | none => c
  | some m => List.eraseP (fun p => p.2.expires_at == m) c

/-- Python `a or b` for an optional string `a`: `b` when `a` is `None` or
empty (falsy), else `a`. -/
def pyOrStr (a : Option String) (b : String) : String :=
  match a with
  | some s => if s = "" then b else s
  | none => b

/-- `cache_key = project_id or namespace or ""` (`kubernetes.py` line 65):
Python `or` skips `None` and empty strings. -/
def cacheKey (pid ns : Option String) : String :=
  pyOrStr pid (pyOrStr ns "")

/-- `if len(self._cache) >= self._MAX_CACHE_SIZE: self._evict_expired(now)`
(`kubernetes.py` lines 84-85). -/
def afterExpiredSweep (now : Int) (c : Cache) : Cache :=
  if MAX_CACHE_SIZE ≤ c.length then evictExpired now c else c

/-- Lines 84-89: the expired sweep at capacity, then — if still at
capacity — the drop of the entry with the smallest `expires_at`. -/
def evictIfFull (now : Int) (c : Cache) : Cache :=
  if MAX_CACHE_SIZE ≤ (afterExpiredSweep now c).length
  then evictOldest (afterExpiredSweep now c)
  else afterExpiredSweep now c

/-- Lines 73 and 82-93: the cache state after a successful resolution is
stored — the (possibly stale) entry for the key was popped, eviction ran,
and the fresh entry with `expires_at = now + ttl` was appended. -/
def storeState (cache : Cache) (now ttl : Int) (key : String)
    (ctx : ProjectContext) : Cache :=
  evictIfFull now (cachePop cache key) ++ [(key, ⟨ctx, now + ttl⟩)]

/-- Lines 73-95 of `kubernetes.py`, the cache-miss path: pop the stale
entry, consult the authorities (abstracted as `query`), and on success
store the result under the capacity bound. -/
def lookupMiss (cache : Cache) (now ttl : Int) (key : String)
    (query : Option ProjectContext) : Option ProjectContext × Cache × Bool :=
  match query with
  | none => (none, cachePop cache key, true)
  | some ctx => (some ctx, storeState cache now ttl key ctx, true)

/-- `ProjectContextReader.lookup` (`kubernetes.py` lines 58-95).  Returns the
looked-up context, the cache after the call, and whether the authority block
(Kubernetes/YAML, lines 75-80, abstracted as `query`) was reached. -/
def lookup (cache : Cache) (now ttl : Int) (ns pid : Option String)
    (query : Option ProjectContext) : Option ProjectContext × Cache × Bool :=
  match cacheGet cache (cacheKey pid ns) with
  | some entry =>
      if now < entry.expires_at then
        (some entry.context, cache, false)
      else
        lookupMiss cache now ttl (cacheKey pid ns) query
  | none => lookupMiss cache now ttl (cacheKey pid ns) query

/-! ## Payloads (`actions/fox_enrich.py`)

Inbound payloads are JSON-like Python dicts.  `PyVal` covers the value
shapes the action inspects: `None`, strings, ints, booleans, lists and
nested dicts.  `dget` is `d.get(k)` with the stored value, or `PyVal.none`
when the key is absent — exactly as in Python, where `get` cannot
distinguish an absent key from a stored `None`. -/

inductive PyVal where
  | none
  | str (s : String)
  | int (n : Int)
  | bool (b : Bool)
  | list (xs : List PyVal)
  | dict (entries : List (String × PyVal))

abbrev PyDict : Type := List (String × PyVal)

/-- `d.get(k)`: the stored value, or `None` when absent. -/
def dget (d : PyDict) (k : String) : PyVal :=
  match List.find? (fun p => p.1 == k) d with
  | some p => p.2
  | Option.none => PyVal.none

/-- `d.get(k, default)`: key-presence semantics, unlike truthiness. -/
def dgetD (d : PyDict) (k : String) (dflt : PyVal) : PyVal :=
  match List.find? (fun p => p.1 == k) d with
  | some p => p.2
  | Option.none => dflt

/-- Python truthiness of a value. -/
def pyTruthy : PyVal → Bool
  | PyVal.none => false
  | PyVal.str s => s ≠ ""
  | PyVal.int n => n ≠ 0
  | PyVal.bool b => b
  | PyVal.list xs => ¬ xs.isEmpty
  | PyVal.dict entries => ¬ entries.isEmpty

/-- Python `a or b` on values: `b` when `a` is falsy. -/
def pyOr (a b : PyVal) : PyVal :=
  if pyTruthy a then a else b

/-- `FoxEnrichAction.validate` (`actions/fox_enrich.py` lines 66-82). -/
def validate (payload : PyDict) : Option String :=
  if payload.isEmpty then some "Empty payload"
  else
    match dget payload "alerts" with
    | PyVal.none =>
        -- `alerts is None` (absent or stored None): direct-trigger format
        if ¬ pyTruthy (dget payload "alert_name") ∧
            ¬ pyTruthy (dget payload "alertname") then
          some "Payload must have \x27alert_name\x27 or \x27alertname\x27"
        else none
    | PyVal.list xs =>
        if xs.isEmpty then
          some "Alertmanager payload must have non-empty \x27alerts\x27 array"
        else none
    | _ => some "Alertmanager payload must have non-empty \x27alerts\x27 array"

/-- `labels = alert_data.get("labels", {})` (`actions/fox_enrich.py` line
150), viewed as a dict. -/
def labelsDict (alert_data : PyDict) : PyDict :=
  match dgetD alert_data "labels" (PyVal.dict []) with
  | PyVal.dict m => m
  | _ => []

/-- The alert-name resolution of `_process_alert`
(`actions/fox_enrich.py` lines 150-156):
`labels.get("alertname") or alert_data.get("alert_name")
or alert_data.get("alertname", "unknown")` — the first two candidates by
truthiness, the last by key presence with default `"unknown"`. -/
def resolveAlertName (alert_data : PyDict) : PyVal :=
  pyOr (dget (labelsDict alert_data) "alertname")
    (pyOr (dget alert_data "alert_name")
      (dgetD alert_data "alertname" (PyVal.str "unknown")))

/-! ## Entry action (`actions/fox_enrich.py`, `FoxEnrichAction.execute`)

`execute` drives `self._process_alert` over either the `alerts` batch or
the single direct payload, converting raised exceptions (embedded as
`Except.error`) into structured results.  The per-alert processor is a
parameter, exactly matching the injected `self._process_alert` call. -/

/-- `ActionStatus` (from `contextcore_rabbit.action`), the two values
`execute` produces. -/
inductive ActionStatus where
  | SUCCESS
  | FAILED
deriving Repr, DecidableEq

/-- The per-alert summary dict `_process_alert` returns
(`actions/fox_enrich.py` lines 182-188). -/
structure AlertSummary where
  alert_name : String
  project_id : String
  criticality : String
  enriched : Bool
  actions_dispatched : List String
deriving Repr, DecidableEq

/-- One entry of the batch `results` list: the summary dict on success, or
the `{"error": ..., "alert_name": ...}` dict recorded for a failure
(lines 109-114). -/
inductive BatchEntry where
  | ok (summary : AlertSummary)
  | err (error : String) (alert_name : String)
deriving Repr, DecidableEq

/-- Whether a result entry carries an `error` field. -/
def BatchEntry.hasErrorField : BatchEntry → Bool
  | BatchEntry.ok _ => false
  | BatchEntry.err _ _ => true

/-- The `data` dict of the returned `ActionResult`: the batch aggregate
(lines 121-125), the direct summary (line 136), or the direct error dict
(line 143). -/
inductive ResultData where
  | batch (alerts_processed : Nat) (failures : Nat) (results : List BatchEntry)
  | direct (summary : AlertSummary)
  | directError (error : String)
deriving Repr, DecidableEq

/-- `ActionResult` (from `contextcore_rabbit.action`), as `execute` builds it. -/
structure ActionResult where
  status : ActionStatus
  action_name : String
  message : String
  data : ResultData
deriving Repr, DecidableEq

/-- The batch loop body (lines 99-114) for one element: the summary on
success, or the error entry whose `alert_name` is
`alert_data.get("labels", {}).get("alertname", "unknown")` — abstracted as
`errName`. -/
def stepEntry (process : α → Except String AlertSummary) (errName : α → String)
    (a : α) : BatchEntry :=
  match process a with
  | Except.ok s => BatchEntry.ok s
  | Except.error e => BatchEntry.err e (errName a)

/-- The batch loop (lines 97-114): results in input order and the failure
count. -/
def runBatch (process : α → Except String AlertSummary) (errName : α → String) :
    List α → List BatchEntry × Nat
  | [] => ([], 0)
  | a :: rest =>
      let (rs, f) := runBatch process errName rest
      match process a with
      | Except.ok s => (BatchEntry.ok s :: rs, f)
      | Except.error e => (BatchEntry.err e (errName a) :: rs, f + 1)

/-- The batch branch of `execute` (lines 95-126). -/
def executeBatch (process : α → Except String AlertSummary)
    (errName : α → String) (alerts : List α) : ActionResult :=
  let (results, failures) := runBatch process errName alerts
  { status := if failures = 0 then ActionStatus.SUCCESS else ActionStatus.FAILED
    action_name := "fox_enrich"
    message := s!"Processed {results.length} alerts ({failures} failures)"
    data := ResultData.batch results.length failures results }

/-- The direct-trigger branch of `execute` (lines 127-144): the
`try/except` around `self._process_alert(payload, context)`. -/
def executeDirect (outcome : Except String AlertSummary) : ActionResult :=
  match outcome with
  | Except.ok r =>
      { status := ActionStatus.SUCCESS
        action_name := "fox_enrich"
        message := s!"Enriched alert: {r.alert_name}"
        data := ResultData.direct r }
  | Except.error e =>
      { status := ActionStatus.FAILED
        action_name := "fox_enrich"
        message := s!"Failed to enrich alert: {e}"
        data := ResultData.directError e }

/-- `FoxEnrichAction.execute` (lines 84-144): dispatch on
`payload.get("alerts") is not None`, with `self._process_alert` abstracted
as `process`.  `alerts = some as` is the batch branch; `alerts = none` runs
the whole payload as one alert. -/
def execute (process : α → Except String AlertSummary) (errName : α → String)
    (alerts : Option (List α)) (payload : α) : ActionResult :=
  match alerts with
  | some as => executeBatch process errName as
  | Option.none => executeDirect (process payload)

/-- The dict stored under a key, or `{}` for any non-dict value. -/
def asDict : PyVal → PyDict
  | PyVal.dict m => m
  | _ => []

/-- View a payload value as a string.  On every payload shape the repo
consumes (Alertmanager webhook, direct trigger, the tests' fixtures) the
name/source/status fields and label values are strings, which this maps
faithfully; it is total so the embedding stays executable. -/
def pyStr : PyVal → String
  | PyVal.str s => s
  | _ => ""

/-- A label/annotation dict as the `Dict[str, str]` the `Alert` dataclass
declares: its string-valued entries, in order. -/
def toStrMap (d : PyDict) : List (String × String) :=
  d.filterMap (fun p =>
    match p.2 with
    | PyVal.str s => some (p.1, s)
    | _ => Option.none)

/-- `FoxEnrichAction._process_alert` (`actions/fox_enrich.py` lines
146-188).  Lines 150-173 build the `Alert` and start the root
`fox.alert.received` span; `trace.use_span(received_span, end_on_exit=True)`
makes it active.  Line 176, `enriched, enrich_span =
self._enricher.enrich(alert)`, then unpacks the value `enrich` returns —
a single `EnrichedAlert` dataclass (`enricher.py` line 96), which is not
iterable — so the assignment raises `TypeError`; `use_span`'s exit handler
ends the received span and the exception propagates.  Lines 178-188 (the
enrich-span nesting, the dispatch and the summary dict) are unreachable. -/
def processAlert (reader : ReaderFn) (tc : TraceCtx)
    (alert_data ctxDict : PyDict) : Except String AlertSummary × TraceCtx :=
  let labels := toStrMap (asDict (dgetD alert_data "labels" (PyVal.dict [])))
  let annotations := toStrMap (asDict (dgetD alert_data "annotations" (PyVal.dict [])))
  let alert_name := pyStr (resolveAlertName alert_data)
  let source := pyStr (dgetD ctxDict "source"
    (dgetD alert_data "source" (PyVal.str "alertmanager")))
  let status := pyStr (dgetD alert_data "status" (PyVal.str "firing"))
  let alert : Alert := ⟨alert_name, labels, annotations, status, source⟩
  let (received, tc1) := startSpan tc "fox.alert.received"
    [("alert.name", alert.name),
     ("alert.criticality", sgetD labels "severity" "medium"),
     ("alert.source", source)]
  let tc2 := pushSpan tc1 received.sid
  let (_enrichedAlert, tc3) := enrich reader tc2 alert
  let tc4 := endSpan (popSpan tc3) received.sid
  (Except.error "cannot unpack non-iterable EnrichedAlert object", tc4)

/-! # Theorems -/

/-- C1: the claim says `ProjectContextEnricher.enrich` returns a pair of an
`EnrichedAlert` and a `fox.context.enrich` span that is not yet ended.  The
code contradicts it (and its own tests, which unpack a pair and end the
span themselves): `enrich` constructs exactly one `fox.context.enrich`
span, calls `span.end()` on it, and returns only the `EnrichedAlert`
(`enricher.py` lines 88-96, annotation `-> EnrichedAlert`).  On a fresh
tracer state, for every reader and alert — context found or not — the one
span the call constructs is already ended when `enrich` returns. -/
theorem enrich_ends_span_before_returning (reader : ReaderFn) (a : Alert) :
    ((enrich reader TraceCtx.empty a).2.spans.map (fun s => (s.name, s.ended)))
      = [("fox.context.enrich", true)] := by
  cases h : reader (candidateNamespace a) a.labels (projectIdArg a) <;>
    simp [enrich, h, startSpan, endSpan, TraceCtx.empty, TraceCtx.findSpan]

/-- The `ProjectContext` fixture of `test_span_parent_child_hierarchy`
(`tests/test_fox_enrich.py`). -/
def testCtx : ProjectContext :=
  ⟨"test-project", "critical", "test-team", [], "", ""⟩

/-- A reader that resolves exactly the project id `"test-project"`. -/
def hierReader : ReaderFn := fun _ _ pid =>
  if pid = some "test-project" then some testCtx else Option.none

/-- The direct-trigger payload of `test_span_parent_child_hierarchy`. -/
def hierPayload : PyDict :=
  [("alert_name", PyVal.str "HierarchyTest"),
   ("labels", PyVal.dict [("project_id", PyVal.str "test-project"),
                          ("severity", PyVal.str "critical")])]

/-- C2: the claim says each alert's processing emits one root
`fox.alert.received` span, one `fox.context.enrich` child, and one
`fox.action.<name>` span per dispatched action.  On the code,
`_process_alert` raises `TypeError` at the tuple unpacking of `enrich`'s
return value (`fox_enrich.py` line 176), so processing fails and only the
received and enrich spans exist — no `fox.action.*` span is ever emitted,
contradicting the code's own `test_span_parent_child_hierarchy`.  Evaluated
at that test's payload: the result is the error, and the full emitted span
list is the root received span and the enrich child, both ended. -/
theorem processAlert_raises_before_action_spans :
    (processAlert hierReader TraceCtx.empty hierPayload []).1
        = Except.error "cannot unpack non-iterable EnrichedAlert object" ∧
    ((processAlert hierReader TraceCtx.empty hierPayload []).2.spans.map
        (fun s => (s.name, s.parent, s.traceId, s.ended)))
      = [("fox.alert.received", Option.none, 0, true),
         ("fox.context.enrich", some 0, 0, true)] :=
  ⟨rfl, rfl⟩

/-- C5: whenever the reader resolves a `ProjectContext` for the arguments
`enrich` passes it, the produced `EnrichedAlert` has `enriched = true` and
its project id, criticality, business owner, alert channels and SLO fields
are exactly the resolved context's fields (`enricher.py` lines 76-83). -/
theorem enrich_with_context_copies_fields (reader : ReaderFn) (tc : TraceCtx)
    (a : Alert) (c : ProjectContext)
    (h : reader (candidateNamespace a) a.labels (projectIdArg a) = some c) :
    (enrich reader tc a).1.enriched = true ∧
    (enrich reader tc a).1.project_id = c.project_id ∧
    (enrich reader tc a).1.criticality = c.criticality ∧
    (enrich reader tc a).1.business_owner = c.owner ∧
    (enrich reader tc a).1.alert_channels = c.alert_channels ∧
    (enrich reader tc a).1.availability_slo = c.availability_slo ∧
    (enrich reader tc a).1.latency_p99 = c.latency_p99 := by
  simp [enrich, h]

/-- The `sample_context` fixture (`tests/conftest.py`). -/
def sampleCtx : ProjectContext :=
  ⟨"checkout-service", "critical", "commerce-team", ["commerce-oncall"],
   "99.95", "200ms"⟩

/-- The `sample_alert` fixture (`tests/conftest.py`). -/
def sampleAlert : Alert :=
  ⟨"KubePodCrashLooping",
   [("namespace", "commerce"), ("project_id", "checkout-service"),
    ("severity", "critical"), ("pod", "checkout-api-abc123")],
   [("summary", "Pod is crash-looping")], "firing", "alertmanager"⟩

/-- Witness for C5 at the repository's own test fixture. -/
theorem enrich_with_context_copies_fields_witness :
    (enrich (fun _ _ _ => some sampleCtx) TraceCtx.empty sampleAlert).1.enriched = true ∧
    (enrich (fun _ _ _ => some sampleCtx) TraceCtx.empty sampleAlert).1.project_id
      = "checkout-service" ∧
    (enrich (fun _ _ _ => some sampleCtx) TraceCtx.empty sampleAlert).1.business_owner
      = "commerce-team" :=
  have h := enrich_with_context_copies_fields
    (fun _ _ _ => some sampleCtx) TraceCtx.empty sampleAlert sampleCtx rfl
  ⟨h.1, h.2.1, h.2.2.2.1⟩

/-- C6: whenever the reader resolves nothing, the produced `EnrichedAlert`
has `enriched = false`, `project_id` equal to the candidate extracted from
`labels["project_id"]` (or `labels["project"]`, possibly empty),
`criticality` equal to `labels["severity"]` — or `"medium"` when that label
is absent — and owner, channels and SLO fields at their dataclass defaults
(`enricher.py` lines 84-86). -/
theorem enrich_without_context_fallback (reader : ReaderFn) (tc : TraceCtx)
    (a : Alert)
    (h : reader (candidateNamespace a) a.labels (projectIdArg a) = Option.none) :
    (enrich reader tc a).1.enriched = false ∧
    (enrich reader tc a).1.project_id = candidateProjectId a ∧
    (∀ sev, sget a.labels "severity" = some sev →
        (enrich reader tc a).1.criticality = sev) ∧
    (sget a.labels "severity" = Option.none →
        (enrich reader tc a).1.criticality = "medium") ∧
    (enrich reader tc a).1.business_owner = "" ∧
    (enrich reader tc a).1.alert_channels = [] ∧
    (enrich reader tc a).1.availability_slo = "" ∧
    (enrich reader tc a).1.latency_p99 = "" := by
  refine ⟨by simp [enrich, h], by simp [enrich, h], ?_, ?_,
    by simp [enrich, h], by simp [enrich, h], by simp [enrich, h],
    by simp [enrich, h]⟩
  · intro sev hs
    simp [enrich, h, sgetD, hs]
  · intro hs
    simp [enrich, h, sgetD, hs]

/-- Witness for C6: a severity-labelled alert with no resolvable context,
and a label-free alert falling back to `"medium"`. -/
theorem enrich_without_context_fallback_witness :
    (enrich (fun _ _ _ => Option.none) TraceCtx.empty sampleAlert).1.enriched = false ∧
    (enrich (fun _ _ _ => Option.none) TraceCtx.empty sampleAlert).1.project_id
      = candidateProjectId sampleAlert ∧
    (enrich (fun _ _ _ => Option.none) TraceCtx.empty sampleAlert).1.criticality
      = "critical" ∧
    (enrich (fun _ _ _ => Option.none) TraceCtx.empty
        ⟨"Unknown", [], [], "firing", "test"⟩).1.criticality = "medium" :=
  have h1 := enrich_without_context_fallback
    (fun _ _ _ => Option.none) TraceCtx.empty sampleAlert rfl
  have h2 := enrich_without_context_fallback
    (fun _ _ _ => Option.none) TraceCtx.empty ⟨"Unknown", [], [], "firing", "test"⟩ rfl
  ⟨h1.1, h1.2.1, h1.2.2.1 "critical" rfl, h2.2.2.2.1 rfl⟩

/-- C8: `CriticalityRouter.route` is a pure lookup of the lower-cased
criticality in the routing table: when some table row matches the
lower-cased criticality, its action list is returned, and for every
criticality whose lower-cased form is not a key of the table the result is
exactly `["log"]` (`router.py` lines 25-32).  Purity and determinism are
inherent: `route` reads nothing but its two arguments. -/
theorem route_lowercases_and_defaults_to_log
    (table : List (String × List String)) (e : EnrichedAlert) :
    ((∀ p ∈ table, p.1 ≠ pyLower e.criticality) → route table e = ["log"]) ∧
    (∀ k acts, table.find? (fun p => p.1 == pyLower e.criticality) = some (k, acts) →
        route table e = acts) := by
  constructor
  · intro h
    have hn : table.find? (fun p => p.1 == pyLower e.criticality) = Option.none :=
      List.find?_eq_none.mpr (fun x hx => by simpa using h x hx)
    simp [route, hn]
  · intro k acts h
    simp [route, h]

/-- Witness for C8: on the default routing table, the unknown criticality
`"Informational"` routes to `["log"]`, and `"CRITICAL"` is found
case-insensitively. -/
theorem route_lowercases_and_defaults_to_log_witness :
    route defaultRoutingTable { alert := sampleAlert, criticality := "Informational" }
      = ["log"] ∧
    route defaultRoutingTable { alert := sampleAlert, criticality := "CRITICAL" }
      = ["claude_analysis", "context_notify"] :=
  ⟨(route_lowercases_and_defaults_to_log defaultRoutingTable
      { alert := sampleAlert, criticality := "Informational" }).1 (by decide),
   (route_lowercases_and_defaults_to_log defaultRoutingTable
      { alert := sampleAlert, criticality := "CRITICAL" }).2
      "critical" ["claude_analysis", "context_notify"] (by decide)⟩

/-- The number of batch elements whose processing raises. -/
def failCount (process : α → Except String AlertSummary) (as : List α) : Nat :=
  as.countP (fun a => !(process a).isOk)

/-- The batch loop produces one entry per input element, in order, and
counts exactly the failing elements. -/
theorem runBatch_spec (process : α → Except String AlertSummary)
    (errName : α → String) (as : List α) :
    runBatch process errName as
      = (as.map (stepEntry process errName), failCount process as) := by
  induction as with
  | nil => rfl
  | cons a rest ih =>
      simp only [runBatch, ih, failCount, List.countP_cons, List.map_cons, stepEntry]
      cases h : process a <;> simp [h, Except.isOk, Except.toBool]

/-- C4: on a batch of `N` alerts of which `M` raise, `executeBatch`
processes every element (the results list has one entry per input, in
order: the summary for a success, the `error`-carrying entry for a
failure), reports `alerts_processed = N` and `failures = M`, and has
status `FAILED` iff `M > 0` (`actions/fox_enrich.py` lines 95-126). -/
theorem executeBatch_processes_every_alert (process : α → Except String AlertSummary)
    (errName : α → String) (as : List α) :
    executeBatch process errName as =
      { status := if failCount process as = 0 then ActionStatus.SUCCESS
                  else ActionStatus.FAILED
        action_name := "fox_enrich"
        message := s!"Processed {as.length} alerts ({failCount process as} failures)"
        data := ResultData.batch as.length (failCount process as)
                  (as.map (stepEntry process errName)) } ∧
    ((executeBatch process errName as).status = ActionStatus.FAILED
        ↔ 0 < failCount process as) ∧
    (∀ a, (stepEntry process errName a).hasErrorField = !(process a).isOk) := by
  refine ⟨?_, ?_, ?_⟩
  · simp [executeBatch, runBatch_spec]
  · simp only [executeBatch, runBatch_spec]
    rcases Nat.eq_zero_or_pos (failCount process as) with h | h <;>
      simp [h, Nat.pos_iff_ne_zero.mp, Nat.ne_of_gt]
  · intro a
    cases h : process a <;>
      simp [stepEntry, h, BatchEntry.hasErrorField, Except.isOk, Except.toBool]

/-- C3: `execute` always returns a structured `ActionResult` (it is a total
function of the embedding — every exception of the per-alert processor is
caught).  In direct mode a processing exception becomes a `FAILED` result
carrying the exception message (`actions/fox_enrich.py` lines 137-144), a
success becomes a `SUCCESS` result with the summary (lines 129-136), and in
batch mode per-alert exceptions are caught per entry: the batch result
always accounts for every input element. -/
theorem execute_converts_exceptions_to_results
    (process : α → Except String AlertSummary) (errName : α → String)
    (payload : α) :
    (∀ e, process payload = Except.error e →
        execute process errName Option.none payload =
          { status := ActionStatus.FAILED
            action_name := "fox_enrich"
            message := s!"Failed to enrich alert: {e}"
            data := ResultData.directError e }) ∧
    (∀ r, process payload = Except.ok r →
        execute process errName Option.none payload =
          { status := ActionStatus.SUCCESS
            action_name := "fox_enrich"
            message := s!"Enriched alert: {r.alert_name}"
            data := ResultData.direct r }) ∧
    (∀ as : List α,
        execute process errName (some as) payload = executeBatch process errName as ∧
        (executeBatch process errName as).data
          = ResultData.batch as.length (failCount process as)
              (as.map (stepEntry process errName))) := by
  refine ⟨?_, ?_, ?_⟩
  · intro e h
    simp [execute, executeDirect, h]
  · intro r h
    simp [execute, executeDirect, h]
  · intro as
    exact ⟨rfl, by simp [executeBatch, runBatch_spec]⟩

/-- Witness for C3: a processor that raises yields the `FAILED` direct
result; one that succeeds yields the `SUCCESS` result; a two-element batch
under the raising processor still accounts for both elements. -/
theorem execute_converts_exceptions_to_results_witness :
    (execute (fun _ : Unit => Except.error "boom") (fun _ => "unknown")
        Option.none ()).status = ActionStatus.FAILED ∧
    (execute (fun _ : Unit => Except.error "boom") (fun _ => "unknown")
        Option.none ()).data = ResultData.directError "boom" ∧
    (execute (fun _ : Unit =>
        Except.ok (⟨"A", "p", "high", true, ["context_notify"]⟩ : AlertSummary))
        (fun _ => "unknown") Option.none ()).status = ActionStatus.SUCCESS ∧
    (execute (fun _ : Unit => Except.error "boom") (fun _ => "unknown")
        (some [(), ()]) ()).data
      = ResultData.batch 2 2 [BatchEntry.err "boom" "unknown",
                              BatchEntry.err "boom" "unknown"] := by
  have hf := (execute_converts_exceptions_to_results
    (fun _ : Unit => Except.error "boom") (fun _ => "unknown") ()).1 "boom" rfl
  have hs := (execute_converts_exceptions_to_results
    (fun _ : Unit =>
      Except.ok (⟨"A", "p", "high", true, ["context_notify"]⟩ : AlertSummary))
    (fun _ => "unknown") ()).2.1 ⟨"A", "p", "high", true, ["context_notify"]⟩ rfl
  have hb := (execute_converts_exceptions_to_results
    (fun _ : Unit => Except.error "boom") (fun _ => "unknown") ()).2.2 [(), ()]
  refine ⟨by rw [hf], by rw [hf], by rw [hs], ?_⟩
  rw [hb.1, hb.2]
  rfl

/-- A payload that carries the `alert_name` key with an empty-string value:
the claim's "returns none for every payload carrying an `alert_name` or
`alertname` key" fails here. -/
def emptyNamePayload : PyDict := [("alert_name", PyVal.str "")]

/-- C9 counterexample: `emptyNamePayload` carries the `alert_name` key, yet
`validate` rejects it — the code tests truthiness
(`not payload.get("alert_name")`, `actions/fox_enrich.py` line 79), not key
presence, so a present-but-empty name is a validation error. -/
theorem validate_present_empty_name_rejected :
    List.find? (fun p => p.1 == "alert_name") emptyNamePayload
      = some ("alert_name", PyVal.str "") ∧
    validate emptyNamePayload
      = some "Payload must have \x27alert_name\x27 or \x27alertname\x27" ∧
    validate emptyNamePayload ≠ Option.none := by
  refine ⟨rfl, rfl, ?_⟩
  intro h
  simp [validate, emptyNamePayload, dget, pyTruthy] at h

/-- C9 amended: `validate` returns no error exactly for payloads with a
non-empty `alerts` list value, and for payloads whose `alerts` entry is
absent (or a stored `None`, which `payload.get` cannot distinguish) and
whose `alert_name` or `alertname` value is truthy; the three error cases
(empty payload / bad `alerts` value / missing-or-falsy alert name) each
yield their own fixed message, and the messages are distinct and non-empty.
`validate` is a total function of the embedding: it never raises. -/
theorem validate_characterization (p : PyDict) :
    (validate p = Option.none ↔
      (p.isEmpty = false ∧
        ((∃ xs, dget p "alerts" = PyVal.list xs ∧ xs.isEmpty = false) ∨
         (dget p "alerts" = PyVal.none ∧
           (pyTruthy (dget p "alert_name") = true ∨
            pyTruthy (dget p "alertname") = true))))) ∧
    (p.isEmpty = true → validate p = some "Empty payload") ∧
    (∀ xs, p.isEmpty = false → dget p "alerts" = PyVal.list xs → xs.isEmpty = true →
        validate p
          = some "Alertmanager payload must have non-empty \x27alerts\x27 array") ∧
    (∀ v, p.isEmpty = false → dget p "alerts" = v → v ≠ PyVal.none →
        (∀ xs, v ≠ PyVal.list xs) →
        validate p
          = some "Alertmanager payload must have non-empty \x27alerts\x27 array") ∧
    (p.isEmpty = false → dget p "alerts" = PyVal.none →
        pyTruthy (dget p "alert_name") = false →
        pyTruthy (dget p "alertname") = false →
        validate p
          = some "Payload must have \x27alert_name\x27 or \x27alertname\x27") ∧
    ("Empty payload"
        ≠ "Alertmanager payload must have non-empty \x27alerts\x27 array" ∧
     "Empty payload"
        ≠ "Payload must have \x27alert_name\x27 or \x27alertname\x27" ∧
     "Alertmanager payload must have non-empty \x27alerts\x27 array"
        ≠ "Payload must have \x27alert_name\x27 or \x27alertname\x27") := by
  refine ⟨?_, ?_, ?_, ?_, ?_, by decide, by decide, by decide⟩
  · by_cases hp : p.isEmpty
    · simp [validate, hp]
    · simp only [validate, hp, if_true, if_false]
      cases hv : dget p "alerts" <;> simp [hp, hv]
      by_cases h1 : pyTruthy (dget p "alert_name") <;>
        by_cases h2 : pyTruthy (dget p "alertname") <;> simp [h1, h2]
  · intro hp; simp [validate, hp]
  · intro xs hp hv hxs; simp [validate, hp, hv, hxs]
  · intro v hp hv hvn hvl
    cases v with
    | none => exact absurd rfl hvn
    | list xs => exact absurd rfl (hvl xs)
    | str s => simp [validate, hp, hv]
    | int n => simp [validate, hp, hv]
    | bool b => simp [validate, hp, hv]
    | dict entries => simp [validate, hp, hv]
  · intro hp hv h1 h2; simp [validate, hp, hv, h1, h2]

/-- Witness for C9: each branch of the characterization at a concrete
payload — a valid batch, a valid direct trigger, the empty payload, an
empty `alerts` list, a non-list `alerts` value, and a nameless direct
payload. -/
theorem validate_characterization_witness :
    validate [("alerts", PyVal.list [PyVal.dict [("labels", PyVal.dict [])]])]
      = Option.none ∧
    validate [("alert_name", PyVal.str "TestAlert")] = Option.none ∧
    validate [] = some "Empty payload" ∧
    validate [("alerts", PyVal.list [])]
      = some "Alertmanager payload must have non-empty \x27alerts\x27 array" ∧
    validate [("alerts", PyVal.str "x")]
      = some "Alertmanager payload must have non-empty \x27alerts\x27 array" ∧
    validate [("labels", PyVal.dict [("foo", PyVal.str "bar")])]
      = some "Payload must have \x27alert_name\x27 or \x27alertname\x27" := by
  refine ⟨?_, ?_, ?_, ?_, ?_, ?_⟩
  · exact (validate_characterization _).1.mpr
      ⟨rfl, Or.inl ⟨[PyVal.dict [("labels", PyVal.dict [])]], rfl, rfl⟩⟩
  · exact (validate_characterization _).1.mpr ⟨rfl, Or.inr ⟨rfl, Or.inl rfl⟩⟩
  · exact (validate_characterization _).2.1 rfl
  · exact (validate_characterization _).2.2.1 [] rfl rfl rfl
  · exact (validate_characterization _).2.2.2.1 (PyVal.str "x") rfl rfl
      (by intro h; cases h) (by intro xs h; cases h)
  · exact (validate_characterization _).2.2.2.2.1 rfl rfl rfl rfl

/-- An alert record whose only entry is a top-level `alertname` key holding
the empty string. -/
def emptyAlertnamePayload : PyDict := [("alertname", PyVal.str "")]

/-- C10 counterexample: the claim says a present-but-empty value at any
resolution step falls through to the next candidate, which at the last step
would be the default `"unknown"`.  But the last step is
`alert_data.get("alertname", "unknown")` — key presence, not truthiness —
so a present-but-empty top-level `alertname` resolves to the empty string,
not `"unknown"`. -/
theorem resolveAlertName_keeps_empty_last_candidate :
    resolveAlertName emptyAlertnamePayload = PyVal.str "" ∧
    PyVal.str "" ≠ PyVal.str "unknown" := by
  refine ⟨rfl, ?_⟩
  intro h
  injection h with h'
  exact absurd h' (by decide)

/-- C10 amended: the alert name is resolved with the fixed precedence
`labels["alertname"]`, then top-level `alert_name`, then top-level
`alertname`; a falsy (e.g. present-but-empty) value at either of the first
two steps falls through to the next candidate, while the final step is
decided by key presence: a present `alertname` value is returned as-is even
when falsy, and `"unknown"` is returned only when the key is absent
(`actions/fox_enrich.py` lines 150-156). -/
theorem resolveAlertName_precedence (ad : PyDict) :
    (pyTruthy (dget (labelsDict ad) "alertname") = true →
        resolveAlertName ad = dget (labelsDict ad) "alertname") ∧
    (pyTruthy (dget (labelsDict ad) "alertname") = false →
      pyTruthy (dget ad "alert_name") = true →
        resolveAlertName ad = dget ad "alert_name") ∧
    (pyTruthy (dget (labelsDict ad) "alertname") = false →
      pyTruthy (dget ad "alert_name") = false →
      ∀ k v, List.find? (fun p => p.1 == "alertname") ad = some (k, v) →
        resolveAlertName ad = v) ∧
    (pyTruthy (dget (labelsDict ad) "alertname") = false →
      pyTruthy (dget ad "alert_name") = false →
      List.find? (fun p => p.1 == "alertname") ad = Option.none →
        resolveAlertName ad = PyVal.str "unknown") := by
  refine ⟨?_, ?_, ?_, ?_⟩
  · intro h1
    simp [resolveAlertName, pyOr, h1]
  · intro h1 h2
    simp [resolveAlertName, pyOr, h1, h2]
  · intro h1 h2 k v hf
    simp [resolveAlertName, pyOr, h1, h2, dgetD, hf]
  · intro h1 h2 hf
    simp [resolveAlertName, pyOr, h1, h2, dgetD, hf]

/-- Witness for C10: all four precedence branches at concrete records. -/
theorem resolveAlertName_precedence_witness :
    resolveAlertName [("labels", PyVal.dict [("alertname", PyVal.str "L")]),
                      ("alert_name", PyVal.str "A")] = PyVal.str "L" ∧
    resolveAlertName [("labels", PyVal.dict [("alertname", PyVal.str "")]),
                      ("alert_name", PyVal.str "A")] = PyVal.str "A" ∧
    resolveAlertName [("alertname", PyVal.str "V")] = PyVal.str "V" ∧
    resolveAlertName [("status", PyVal.str "firing")] = PyVal.str "unknown" := by
  refine ⟨?_, ?_, ?_, ?_⟩
  · exact (resolveAlertName_precedence
      [("labels", PyVal.dict [("alertname", PyVal.str "L")]),
       ("alert_name", PyVal.str "A")]).1 rfl
  · exact (resolveAlertName_precedence
      [("labels", PyVal.dict [("alertname", PyVal.str "")]),
       ("alert_name", PyVal.str "A")]).2.1 rfl rfl
  · exact (resolveAlertName_precedence [("alertname", PyVal.str "V")]).2.2.1
      rfl rfl "alertname" (PyVal.str "V") rfl
  · exact (resolveAlertName_precedence [("status", PyVal.str "firing")]).2.2.2
      rfl rfl rfl

/-! ## Cache lemmas for C7 -/

theorem mem_cachePop_ne (c : Cache) (k : String) :
    ∀ p ∈ cachePop c k, (p.1 == k) = false := by
  intro p hp
  rw [cachePop, List.mem_filter] at hp
  exact beq_eq_false_iff_ne.mpr (by simpa using hp.2)

theorem cacheGet_append_fresh (c : Cache) (k : String) (e : CacheEntry)
    (h : ∀ p ∈ c, (p.1 == k) = false) :
    cacheGet (c ++ [(k, e)]) k = some e := by
  have hn : List.find? (fun p => p.1 == k) c = Option.none :=
    List.find?_eq_none.mpr (fun x hx => by simp [h x hx])
  simp [cacheGet, List.find?_append, hn]

theorem evictOldest_subset (c : Cache) : evictOldest c ⊆ c := by
  rw [evictOldest]
  cases minExpiry c with
  | none => exact fun x h => h
  | some m => exact List.eraseP_subset _

theorem length_evictOldest (c : Cache) (h : c ≠ []) :
    (evictOldest c).length + 1 = c.length := by
  rw [evictOldest]
  cases hm : minExpiry c with
  | none =>
      exfalso
      rw [minExpiry, List.min?_eq_none_iff] at hm
      exact h (List.map_eq_nil_iff.mp hm)
  | some m =>
      have hmem : m ∈ List.map (fun p => p.2.expires_at) c :=
        List.min?_mem (fun a b => min_choice a b) (minExpiry.eq_def c ▸ hm)
      obtain ⟨p, hp, hpe⟩ := List.mem_map.mp hmem
      exact List.length_eraseP_add_one hp (by simp [hpe])

theorem afterExpiredSweep_subset (now : Int) (c : Cache) :
    afterExpiredSweep now c ⊆ c := by
  rw [afterExpiredSweep]
  split
  · exact List.filter_subset' c
  · exact fun x h => h

theorem afterExpiredSweep_length (now : Int) (c : Cache) :
    (afterExpiredSweep now c).length ≤ c.length := by
  rw [afterExpiredSweep]
  split
  · exact List.length_filter_le _ c
  · exact le_refl _

theorem evictIfFull_subset (now : Int) (c : Cache) : evictIfFull now c ⊆ c := by
  rw [evictIfFull]
  split
  · exact (evictOldest_subset _).trans (afterExpiredSweep_subset now c)
  · exact afterExpiredSweep_subset now c

theorem evictIfFull_length_lt (now : Int) (c : Cache)
    (h : c.length ≤ MAX_CACHE_SIZE) :
    (evictIfFull now c).length < MAX_CACHE_SIZE := by
  rw [evictIfFull]
  split
  · next h1 =>
      have hle : (afterExpiredSweep now c).length ≤ MAX_CACHE_SIZE :=
        (afterExpiredSweep_length now c).trans h
      have heq : (afterExpiredSweep now c).length = MAX_CACHE_SIZE :=
        le_antisymm hle h1
      have hne : afterExpiredSweep now c ≠ [] := by
        intro h0
        rw [h0] at heq
        simp [MAX_CACHE_SIZE] at heq
      have hlen := length_evictOldest _ hne
      omega
  · next h1 => omega

theorem storeState_get (cache : Cache) (now ttl : Int) (key : String)
    (ctx : ProjectContext) :
    cacheGet (storeState cache now ttl key ctx) key = some ⟨ctx, now + ttl⟩ := by
  rw [storeState]
  refine cacheGet_append_fresh _ _ _ (fun p hp => ?_)
  exact mem_cachePop_ne cache key p (evictIfFull_subset now (cachePop cache key) hp)

theorem storeState_length (cache : Cache) (now ttl : Int) (key : String)
    (ctx : ProjectContext) (h : cache.length ≤ MAX_CACHE_SIZE) :
    (storeState cache now ttl key ctx).length ≤ MAX_CACHE_SIZE := by
  rw [storeState, List.length_append]
  have hc1 : (cachePop cache key).length ≤ MAX_CACHE_SIZE :=
    le_trans (List.length_filter_le _ _) h
  have := evictIfFull_length_lt now (cachePop cache key) hc1
  simpa using this

theorem lookupMiss_consulted (cache : Cache) (now ttl : Int) (key : String)
    (query : Option ProjectContext) :
    (lookupMiss cache now ttl key query).2.2 = true := by
  cases query <;> rfl

/-- C7: the cache contract of `ProjectContextReader.lookup` with key
`project_id or namespace or ""` (`kubernetes.py` lines 58-95):
a live (`now < expires_at`) cached entry is returned as-is, without
consulting the authorities and without touching the cache; when the entry
is absent or expired the authority block is reached, and a successful
resolution is stored under the key with `expires_at = now + ttl` after the
capacity eviction (expired sweep first, then the smallest-`expires_at`
entry, as `storeState` spells out); a cache within the fixed bound
`_MAX_CACHE_SIZE` stays within it. -/
theorem lookup_cache_contract (cache : Cache) (now ttl : Int)
    (ns pid : Option String) (query : Option ProjectContext) :
    (∀ e, cacheGet cache (cacheKey pid ns) = some e → now < e.expires_at →
        lookup cache now ttl ns pid query = (some e.context, cache, false)) ∧
    ((∀ e, cacheGet cache (cacheKey pid ns) = some e → e.expires_at ≤ now) →
        (lookup cache now ttl ns pid query).2.2 = true) ∧
    (∀ ctx, (∀ e, cacheGet cache (cacheKey pid ns) = some e → e.expires_at ≤ now) →
        query = some ctx →
        (lookup cache now ttl ns pid query).1 = some ctx ∧
        (lookup cache now ttl ns pid query).2.1
          = storeState cache now ttl (cacheKey pid ns) ctx ∧
        cacheGet (lookup cache now ttl ns pid query).2.1 (cacheKey pid ns)
          = some ⟨ctx, now + ttl⟩) ∧
    (cache.length ≤ MAX_CACHE_SIZE →
        (lookup cache now ttl ns pid query).2.1.length ≤ MAX_CACHE_SIZE) := by
  refine ⟨?_, ?_, ?_, ?_⟩
  · intro e he hlt
    simp [lookup, he, hlt]
  · intro hstale
    cases hc : cacheGet cache (cacheKey pid ns) with
    | none => simpa [lookup, hc] using lookupMiss_consulted cache now ttl _ query
    | some e =>
        have hnlt : ¬ now < e.expires_at := not_lt.mpr (hstale e hc)
        simpa [lookup, hc, hnlt] using lookupMiss_consulted cache now ttl _ query
  · intro ctx hstale hq
    subst hq
    have hmiss : lookup cache now ttl ns pid (some ctx)
        = lookupMiss cache now ttl (cacheKey pid ns) (some ctx) := by
      cases hc : cacheGet cache (cacheKey pid ns) with
      | none => simp [lookup, hc]
      | some e =>
          have hnlt : ¬ now < e.expires_at := not_lt.mpr (hstale e hc)
          simp [lookup, hc, hnlt]
    rw [hmiss]
    exact ⟨rfl, rfl, storeState_get cache now ttl _ ctx⟩
  · intro hlen
    cases hc : cacheGet cache (cacheKey pid ns) with
    | none =>
        cases query with
        | none =>
            simpa [lookup, hc, lookupMiss] using
              le_trans (List.length_filter_le _ cache) hlen
        | some ctx =>
            simpa [lookup, hc, lookupMiss] using
              storeState_length cache now ttl _ ctx hlen
    | some e =>
        by_cases hlt : now < e.expires_at
        · simpa [lookup, hc, hlt] using hlen
        · cases query with
          | none =>
              simpa [lookup, hc, hlt, lookupMiss] using
                le_trans (List.length_filter_le _ cache) hlen
          | some ctx =>
              simpa [lookup, hc, hlt, lookupMiss] using
                storeState_length cache now ttl _ ctx hlen

/-- A one-entry cache for the C7 witness: `"svc"` cached until time 100. -/
def witnessCacheCtx : ProjectContext := ⟨"svc", "high", "team", [], "", ""⟩

/-- The context a later authority query resolves in the C7 witness. -/
def witnessFreshCtx : ProjectContext := ⟨"svc", "critical", "team", [], "", ""⟩

/-- Witness for C7: at time 50 the entry for `"svc"` (expiring at 100) is a
fresh hit — returned without consulting the authorities, cache unchanged;
at time 200 it is stale, so the authorities are consulted and the new
result is stored with `expires_at = 200 + 300`. -/
theorem lookup_cache_contract_witness :
    lookup [("svc", ⟨witnessCacheCtx, 100⟩)] 50 300 Option.none (some "svc")
        Option.none
      = (some witnessCacheCtx, [("svc", ⟨witnessCacheCtx, 100⟩)], false) ∧
    (lookup [("svc", ⟨witnessCacheCtx, 100⟩)] 200 300 Option.none (some "svc")
        (some witnessFreshCtx)).1 = some witnessFreshCtx ∧
    cacheGet (lookup [("svc", ⟨witnessCacheCtx, 100⟩)] 200 300 Option.none
        (some "svc") (some witnessFreshCtx)).2.1 "svc"
      = some ⟨witnessFreshCtx, 200 + 300⟩ ∧
    (lookup [("svc", ⟨witnessCacheCtx, 100⟩)] 200 300 Option.none (some "svc")
        (some witnessFreshCtx)).2.2 = true ∧
    (lookup [("svc", ⟨witnessCacheCtx, 100⟩)] 200 300 Option.none (some "svc")
        (some witnessFreshCtx)).2.1.length ≤ MAX_CACHE_SIZE := by
  have hstale : ∀ e, cacheGet [("svc", ⟨witnessCacheCtx, 100⟩)]
      (cacheKey (some "svc") Option.none) = some e → e.expires_at ≤ (200 : Int) := by
    intro e he
    have : e = ⟨witnessCacheCtx, 100⟩ := by
      have hv : cacheGet [("svc", ⟨witnessCacheCtx, 100⟩)]
          (cacheKey (some "svc") Option.none)
          = some ⟨witnessCacheCtx, 100⟩ := rfl
      rw [hv] at he
      exact (Option.some.injEq _ _ ▸ he).symm
    rw [this]
    decide
  have hkey : cacheKey (some "svc") Option.none = "svc" := rfl
  have h1 := (lookup_cache_contract [("svc", ⟨witnessCacheCtx, 100⟩)] 50 300
    Option.none (some "svc") Option.none).1 ⟨witnessCacheCtx, 100⟩ rfl (by decide)
  have h3 := (lookup_cache_contract [("svc", ⟨witnessCacheCtx, 100⟩)] 200 300
    Option.none (some "svc") (some witnessFreshCtx)).2.2.1 witnessFreshCtx hstale rfl
  have h2 := (lookup_cache_contract [("svc", ⟨witnessCacheCtx, 100⟩)] 200 300
    Option.none (some "svc") (some witnessFreshCtx)).2.1 hstale
  have h4 := (lookup_cache_contract [("svc", ⟨witnessCacheCtx, 100⟩)] 200 300
    Option.none (some "svc") (some witnessFreshCtx)).2.2.2 (by decide)
  exact ⟨h1, h3.1, hkey ▸ h3.2.2, h2, h4⟩

end Wayfinder
